import Mathlib

/-!
Verification of the sync-wait-object crate (src/lib.rs, src/windows.rs).

The portable core is WaitEvent<T>, an Arc<(Mutex<T>, Condvar)>.  Its wait
loop (wait_with_waiter) is embedded as a function over an explicit schedule
of wake events: each wake event records the instant at which the waiter
closure is re-evaluated after the condvar wait returns, the value observed
in the re-acquired mutex, and whether the condvar wait returned a poison
error.  Time is modelled as Nat instants (Instant subtraction is Nat
truncated subtraction; an Instant is never earlier than the start).
The result pairs the value returned by the call (Except mirrors Result)
with the value stored in the mutex cell at the moment the call returns;
running out of wake events while blocked with no timeout models blocking
forever and yields none.

The Windows backend (src/windows.rs) wraps a raw OS HANDLE; it is embedded
with the HANDLE as a Nat (0 is the default/invalid handle) and the outcome
of WaitForSingleObject as an explicit inductive.
-/

set_option autoImplicit false

inductive WaitObjectError : Type where
  | OsError : Int → String → WaitObjectError
  | SynchronizationBroken : WaitObjectError
  | Timeout : WaitObjectError
deriving DecidableEq, Repr

/-- Handle identity of WaitEvent<T>: a clone of the Arc sharing one state. -/
structure WaitEvent (T : Type) where
  stateRef : Nat
deriving DecidableEq

/-- ManualResetEvent(WaitEvent<bool>), a newtype over the generic handle. -/
structure ManualResetEvent where
  inner : WaitEvent Bool
deriving DecidableEq

/-- AutoResetEvent(WaitEvent<bool>), a newtype over the generic handle. -/
structure AutoResetEvent where
  inner : WaitEvent Bool
deriving DecidableEq

/-- One return from the condvar wait inside the loop of wait_with_waiter:
the instant at which the waiter closure is evaluated right after the wake,
the value found in the re-acquired mutex, and whether the condvar wait
itself returned a poison error (propagated by the question-mark operator). -/
structure WakeEvent (T : Type) where
  now : Nat
  state : T
  poisoned : Bool

namespace WaitEvent

/-- WaitEvent::create_waiter: captures start once; the returned closure
compares Instant::now() - start against the timeout. -/
def create_waiter (timeout : Option Nat) (start : Nat) : Nat → Bool :=
  fun now =>
    match timeout with
    | some t => decide (now - start < t)
    | none => true

/-- The while loop of WaitEvent::wait_with_waiter, entered with
continue_wait = waiter(now) and pass = checker(s) already evaluated:
while continue_wait and not pass, block on the condvar, then re-evaluate
both; on exit return Ok(state) if pass, else Err(Timeout).  With a timeout
and no further wake event the condvar wait_timeout keeps returning with the
state unchanged until the budget is exhausted, hence Timeout; with no
timeout and no further wake event the call blocks forever (none). -/
def waitLoop {T : Type} (timeout : Option Nat) (checker : T → Bool) (start : Nat) :
    T → Nat → List (WakeEvent T) → Option (Except WaitObjectError T × T)
  | s, now, [] =>
    if create_waiter timeout start now && !(checker s) then
      match timeout with
      | some _ => some (.error .Timeout, s)
      | none => none
    else if checker s then some (.ok s, s) else some (.error .Timeout, s)
  | s, now, w :: rest =>
    if create_waiter timeout start now && !(checker s) then
      if w.poisoned then some (.error .SynchronizationBroken, s)
      else waitLoop timeout checker start w.state w.now rest
    else if checker s then some (.ok s, s) else some (.error .Timeout, s)

/-- WaitEvent::wait_with_waiter: lock (poisoned lock yields
SynchronizationBroken), build the waiter from the call start, evaluate
continue_wait and pass once, then run the loop.  s0 is the value in the
mutex at lock acquisition, start the instant captured by create_waiter,
now0 the instant of the first waiter() evaluation. -/
def wait_with_waiter {T : Type} (timeout : Option Nat) (checker : T → Bool)
    (poisoned : Bool) (s0 : T) (start now0 : Nat) (wakes : List (WakeEvent T)) :
    Option (Except WaitObjectError T × T) :=
  if poisoned then some (.error .SynchronizationBroken, s0)
  else waitLoop timeout checker start s0 now0 wakes

/-- WaitEvent::wait_and_reset_with_waiter: run wait_with_waiter; on Ok(g)
mem::replace the guarded cell with reset() and return the previous value,
all before the guard is released; on error the cell is left as the wait
left it. -/
def wait_and_reset_with_waiter {T : Type} (timeout : Option Nat) (checker : T → Bool)
    (reset : Unit → T) (poisoned : Bool) (s0 : T) (start now0 : Nat)
    (wakes : List (WakeEvent T)) : Option (Except WaitObjectError T × T) :=
  match wait_with_waiter timeout checker poisoned s0 start now0 wakes with
  | none => none
  | some (.ok v, _) => some (.ok v, reset ())
  | some (.error e, c) => some (.error e, c)

/-- WaitEvent::wait: match on the timeout option; both branches call
wait_with_waiter with the same arguments. -/
def wait {T : Type} (timeout : Option Nat) (checker : T → Bool)
    (poisoned : Bool) (s0 : T) (start now0 : Nat) (wakes : List (WakeEvent T)) :
    Option (Except WaitObjectError T × T) :=
  match timeout with
  | some _ => wait_with_waiter timeout checker poisoned s0 start now0 wakes
  | none => wait_with_waiter timeout checker poisoned s0 start now0 wakes

/-- WaitEvent::wait_reset: match on the timeout option; both branches call
wait_and_reset_with_waiter with the same arguments. -/
def wait_reset {T : Type} (timeout : Option Nat) (reset : Unit → T)
    (checker : T → Bool) (poisoned : Bool) (s0 : T) (start now0 : Nat)
    (wakes : List (WakeEvent T)) : Option (Except WaitObjectError T × T) :=
  match timeout with
  | some _ => wait_and_reset_with_waiter timeout checker reset poisoned s0 start now0 wakes
  | none => wait_and_reset_with_waiter timeout checker reset poisoned s0 start now0 wakes

end WaitEvent

namespace ManualResetEvent

/-- SignalWaitable::wait_until_set for ManualResetEvent:
self.0.wait(None, |v| *v).map(|g| *g); the deref of the Bool guard is the
returned value itself. -/
def wait_until_set (poisoned : Bool) (s0 : Bool) (start now0 : Nat)
    (wakes : List (WakeEvent Bool)) : Option (Except WaitObjectError Bool × Bool) :=
  WaitEvent.wait none (fun v => v) poisoned s0 start now0 wakes

/-- SignalWaitable::wait for ManualResetEvent:
self.0.wait(Some(timeout), |v| *v).map(|g| *g). -/
def wait (timeout : Nat) (poisoned : Bool) (s0 : Bool) (start now0 : Nat)
    (wakes : List (WakeEvent Bool)) : Option (Except WaitObjectError Bool × Bool) :=
  WaitEvent.wait (some timeout) (fun v => v) poisoned s0 start now0 wakes

/-- From<WaitEvent<bool>> for ManualResetEvent: Self(value). -/
def from_wait_event (value : WaitEvent Bool) : ManualResetEvent := ⟨value⟩

end ManualResetEvent

namespace AutoResetEvent

/-- SignalWaitable::wait_until_set for AutoResetEvent:
self.0.wait_reset(None, || false, |v| *v). -/
def wait_until_set (poisoned : Bool) (s0 : Bool) (start now0 : Nat)
    (wakes : List (WakeEvent Bool)) : Option (Except WaitObjectError Bool × Bool) :=
  WaitEvent.wait_reset none (fun _ => false) (fun v => v) poisoned s0 start now0 wakes

/-- SignalWaitable::wait for AutoResetEvent:
self.0.wait_reset(Some(timeout), || false, |v| *v). -/
def wait (timeout : Nat) (poisoned : Bool) (s0 : Bool) (start now0 : Nat)
    (wakes : List (WakeEvent Bool)) : Option (Except WaitObjectError Bool × Bool) :=
  WaitEvent.wait_reset (some timeout) (fun _ => false) (fun v => v) poisoned s0 start now0 wakes

/-- From<WaitEvent<bool>> for AutoResetEvent: Self(value). -/
def from_wait_event (value : WaitEvent Bool) : AutoResetEvent := ⟨value⟩

end AutoResetEvent

namespace WaitEvent

/-- From<ManualResetEvent> for WaitEvent<bool>: value.0. -/
def from_manual (value : ManualResetEvent) : WaitEvent Bool := value.inner

/-- From<AutoResetEvent> for WaitEvent<bool>: value.0. -/
def from_auto (value : AutoResetEvent) : WaitEvent Bool := value.inner

end WaitEvent

namespace Windows

/-- The possible returns of WaitForSingleObject matched in native_wait. -/
inductive WaitOutcome : Type where
  | wait_object_0 : WaitOutcome
  | wait_timeout : WaitOutcome
  | wait_failed : WaitOutcome
deriving DecidableEq, Repr

/-- From<WIN32_ERROR> for WaitObjectError: OsError with the raw code and
its message. -/
def from_win32_error (code : Int) (message : String) : WaitObjectError :=
  .OsError code message

/-- WaitEvent::native_wait in src/windows.rs: matches the return of
WaitForSingleObject; the last OS error (code, message) is read only on
WAIT_FAILED. -/
def native_wait (ret : WaitOutcome) (lastErrorCode : Int) (lastErrorMessage : String) :
    Except WaitObjectError Bool :=
  match ret with
  | .wait_object_0 => .ok true
  | .wait_timeout => .ok false
  | .wait_failed => .error (from_win32_error lastErrorCode lastErrorMessage)

/-- SignalWaitable::wait_until_set for the native WaitEvent:
self.native_wait(INFINITE). -/
def wait_until_set (ret : WaitOutcome) (lastErrorCode : Int) (lastErrorMessage : String) :
    Except WaitObjectError Bool :=
  native_wait ret lastErrorCode lastErrorMessage

/-- SignalWaitable::wait for the native WaitEvent:
self.native_wait(timeout.as_millis() as u32). -/
def wait (_timeoutMillis : Nat) (ret : WaitOutcome) (lastErrorCode : Int)
    (lastErrorMessage : String) : Except WaitObjectError Bool :=
  native_wait ret lastErrorCode lastErrorMessage

/-- The native WaitEvent(HANDLE): the handle is a raw OS handle value and
HANDLE::default() is the null handle 0, which is_invalid reports invalid. -/
structure NativeEvent where
  handle : Nat
deriving DecidableEq, Repr

/-- HANDLE::is_invalid for the model: the default (null) handle. -/
def isInvalid (h : Nat) : Bool := h == 0

/-- derive(Clone) on WaitEvent(HANDLE): the raw handle value is copied. -/
def clone (ev : NativeEvent) : NativeEvent := ⟨ev.handle⟩

/-- Drop for WaitEvent: if the handle is not invalid, CloseHandle it and
overwrite it with HANDLE::default().  Returns the handle after the drop and
the list of CloseHandle calls the drop issued. -/
def drop (ev : NativeEvent) : NativeEvent × List Nat :=
  if !(isInvalid ev.handle) then (⟨0⟩, [ev.handle])
  else (ev, [])

/-- Run the destructor of every handle in the list once (each clone is
dropped at the end of its own lifetime) and collect every CloseHandle call
issued. -/
def dropAll (evs : List NativeEvent) : List Nat :=
  evs.flatMap (fun ev => (drop ev).2)

end Windows

namespace WaitEvent

/-- When the loop of wait_with_waiter returns Ok, the returned guard value
satisfies the checker and is the value left in the cell. -/
theorem waitLoop_ok_cell {T : Type} (timeout : Option Nat) (checker : T → Bool)
    (start : Nat) (s : T) (now : Nat) (wakes : List (WakeEvent T)) (v c : T)
    (h : waitLoop timeout checker start s now wakes = some (.ok v, c)) :
    c = v ∧ checker v = true := by
  induction wakes generalizing s now with
  | nil =>
    simp only [waitLoop] at h
    split at h
    · cases timeout <;> simp_all
    · split at h
      · rename_i hcs
        simp only [Option.some.injEq, Prod.mk.injEq, Except.ok.injEq] at h
        obtain ⟨hv, hc⟩ := h
        subst hv
        subst hc
        exact ⟨rfl, hcs⟩
      · simp_all
  | cons w rest ih =>
    simp only [waitLoop] at h
    split at h
    · split at h
      · simp_all
      · exact ih _ _ h
    · split at h
      · rename_i hcs
        simp only [Option.some.injEq, Prod.mk.injEq, Except.ok.injEq] at h
        obtain ⟨hv, hc⟩ := h
        subst hv
        subst hc
        exact ⟨rfl, hcs⟩
      · simp_all

/-- When the loop of wait_with_waiter returns an error, the checker failed
on the state at the exit point, and the cell holds a value a writer put
there: the initial value or the value observed at some wake. -/
theorem waitLoop_error_cell {T : Type} (timeout : Option Nat) (checker : T → Bool)
    (start : Nat) (s : T) (now : Nat) (wakes : List (WakeEvent T))
    (e : WaitObjectError) (c : T)
    (h : waitLoop timeout checker start s now wakes = some (.error e, c)) :
    checker c = false ∧ c ∈ s :: wakes.map WakeEvent.state := by
  induction wakes generalizing s now with
  | nil =>
    simp only [waitLoop] at h
    split at h
    · rename_i hcond
      cases timeout with
      | some t =>
        simp only [Option.some.injEq, Prod.mk.injEq] at h
        obtain ⟨-, hc⟩ := h
        subst hc
        simp only [Bool.and_eq_true, Bool.not_eq_true'] at hcond
        simp [hcond.2]
      | none => simp_all
    · split at h
      · simp_all
      · rename_i hcs
        simp only [Option.some.injEq, Prod.mk.injEq] at h
        obtain ⟨-, hc⟩ := h
        subst hc
        simp [hcs]
  | cons w rest ih =>
    simp only [waitLoop] at h
    split at h
    · rename_i hcond
      simp only [Bool.and_eq_true, Bool.not_eq_true'] at hcond
      split at h
      · simp only [Option.some.injEq, Prod.mk.injEq] at h
        obtain ⟨-, hc⟩ := h
        subst hc
        simp [hcond.2]
      · obtain ⟨h1, h2⟩ := ih _ _ h
        refine ⟨h1, ?_⟩
        simp only [List.map_cons, List.mem_cons] at h2 ⊢
        tauto
    · split at h
      · simp_all
      · rename_i hcs
        simp only [Option.some.injEq, Prod.mk.injEq] at h
        obtain ⟨-, hc⟩ := h
        subst hc
        simp [hcs]

/-- With no timeout the loop can only fail through poisoning: Timeout is
unreachable. -/
theorem waitLoop_none_error {T : Type} (checker : T → Bool) (start : Nat)
    (s : T) (now : Nat) (wakes : List (WakeEvent T)) (e : WaitObjectError) (c : T)
    (h : waitLoop none checker start s now wakes = some (.error e, c)) :
    e = .SynchronizationBroken := by
  induction wakes generalizing s now with
  | nil =>
    simp only [waitLoop] at h
    split at h
    · exact absurd h (by simp)
    · rename_i hcond
      split at h
      · simp_all
      · rename_i hcs
        simp [create_waiter, hcs] at hcond
  | cons w rest ih =>
    simp only [waitLoop] at h
    split at h
    · split at h
      · simp_all
      · exact ih _ _ h
    · rename_i hcond
      split at h
      · simp_all
      · rename_i hcs
        simp [create_waiter, hcs] at hcond

/-- Once the single budget measured from the call start is exhausted and
the checker fails, the loop returns Timeout at once, whatever wake events
would still be scheduled. -/
theorem waitLoop_budget_exhausted {T : Type} (t : Nat) (checker : T → Bool)
    (start : Nat) (s : T) (now : Nat) (wakes : List (WakeEvent T))
    (hc : checker s = false) (hb : t ≤ now - start) :
    waitLoop (some t) checker start s now wakes = some (.error .Timeout, s) := by
  cases wakes <;> simp [waitLoop, create_waiter, hc, Nat.not_lt.mpr hb]

/-- A successful wait_with_waiter comes from an unpoisoned loop run: the
value satisfies the checker and is the cell content at return. -/
theorem wait_with_waiter_ok_cell {T : Type} (timeout : Option Nat)
    (checker : T → Bool) (p : Bool) (s0 : T) (start now0 : Nat)
    (wakes : List (WakeEvent T)) (v c : T)
    (h : wait_with_waiter timeout checker p s0 start now0 wakes = some (.ok v, c)) :
    c = v ∧ checker v = true := by
  unfold wait_with_waiter at h
  split at h
  · simp at h
  · exact waitLoop_ok_cell _ _ _ _ _ _ _ _ h

/-- A Timeout from wait_with_waiter leaves the cell holding a value a
writer put there, failing the checker. -/
theorem wait_with_waiter_timeout_cell {T : Type} (timeout : Option Nat)
    (checker : T → Bool) (p : Bool) (s0 : T) (start now0 : Nat)
    (wakes : List (WakeEvent T)) (c : T)
    (h : wait_with_waiter timeout checker p s0 start now0 wakes =
      some (.error .Timeout, c)) :
    checker c = false ∧ c ∈ s0 :: wakes.map WakeEvent.state := by
  unfold wait_with_waiter at h
  split at h
  · simp at h
  · exact waitLoop_error_cell _ _ _ _ _ _ _ _ h

/-- A failed wait_and_reset_with_waiter is exactly a failed
wait_with_waiter: the error case passes the cell through untouched. -/
theorem wait_and_reset_error {T : Type} (timeout : Option Nat) (checker : T → Bool)
    (reset : Unit → T) (p : Bool) (s0 : T) (start now0 : Nat)
    (wakes : List (WakeEvent T)) (e : WaitObjectError) (c : T)
    (h : wait_and_reset_with_waiter timeout checker reset p s0 start now0 wakes =
      some (.error e, c)) :
    wait_with_waiter timeout checker p s0 start now0 wakes = some (.error e, c) := by
  unfold wait_and_reset_with_waiter at h
  rcases heq : wait_with_waiter timeout checker p s0 start now0 wakes with _ | ⟨r, cc⟩
  · rw [heq] at h
    exact absurd h (by simp)
  · rw [heq] at h
    rcases r with err | w
    · simp only [Option.some.injEq, Prod.mk.injEq, Except.error.injEq] at h
      rw [h.1, h.2]
    · simp at h

/-- A successful wait_and_reset_with_waiter comes from a successful
wait_with_waiter on the same value, and swaps reset () into the cell. -/
theorem wait_and_reset_ok {T : Type} (timeout : Option Nat) (checker : T → Bool)
    (reset : Unit → T) (p : Bool) (s0 : T) (start now0 : Nat)
    (wakes : List (WakeEvent T)) (v c : T)
    (h : wait_and_reset_with_waiter timeout checker reset p s0 start now0 wakes =
      some (.ok v, c)) :
    c = reset () ∧ checker v = true ∧
      wait_with_waiter timeout checker p s0 start now0 wakes = some (.ok v, v) := by
  unfold wait_and_reset_with_waiter at h
  rcases heq : wait_with_waiter timeout checker p s0 start now0 wakes with _ | ⟨r, cc⟩
  · rw [heq] at h
    exact absurd h (by simp)
  · rw [heq] at h
    rcases r with err | w
    · simp at h
    · simp only [Option.some.injEq, Prod.mk.injEq, Except.ok.injEq] at h
      obtain ⟨hw, hc⟩ := h
      subst hw
      obtain ⟨hcell, hchk⟩ := wait_with_waiter_ok_cell _ _ _ _ _ _ _ _ _ heq
      subst hcell
      exact ⟨hc.symm, hchk, rfl⟩

end WaitEvent

/-- C1 counterexample: in the native backend the timed-out outcome of the
OS wait does not produce the error Timeout; already at timeout 250 with
last OS error (0, empty message) the wait returns Ok(false). -/
theorem native_wait_timed_out_not_timeout_error :
    Windows.wait 250 .wait_timeout 0 "" = .ok false ∧
    Windows.wait 250 .wait_timeout 0 "" ≠ .error .Timeout := by
  refine ⟨rfl, ?_⟩
  intro h
  simp [Windows.wait, Windows.native_wait] at h

/-- C1 (amended): for every timeout value and every last OS error, the
native wait operations map a signaled outcome to Ok(true), a timed-out
outcome to Ok(false) — success carrying false, not the error Timeout —
and a failed outcome to OsError with the last OS error code and message. -/
theorem native_wait_outcome_mapping (timeoutMillis : Nat) (code : Int)
    (message : String) :
    Windows.wait timeoutMillis .wait_object_0 code message = .ok true ∧
    Windows.wait timeoutMillis .wait_timeout code message = .ok false ∧
    Windows.wait timeoutMillis .wait_failed code message =
      .error (.OsError code message) ∧
    Windows.wait_until_set .wait_object_0 code message = .ok true ∧
    Windows.wait_until_set .wait_timeout code message = .ok false ∧
    Windows.wait_until_set .wait_failed code message =
      .error (.OsError code message) :=
  ⟨rfl, rfl, rfl, rfl, rfl, rfl⟩

/-- C2: the timeout is one budget measured from the instant captured at
the start of the call: at any point of the predicate-wait loop — any
current state, any instant, after any number of wakes — once the elapsed
time since that start reaches the timeout and the checker fails, the
waiter closure reports false, the loop returns Timeout at once, and the
outcome is independent of any wake events that would still follow: a
spurious wakeup never restarts a fresh full window. -/
theorem wait_single_time_budget {T : Type} (t : Nat) (checker : T → Bool)
    (start : Nat) (s : T) (now : Nat) (wakes wakes2 : List (WakeEvent T))
    (hc : checker s = false) (hb : t ≤ now - start) :
    WaitEvent.create_waiter (some t) start now = false ∧
    WaitEvent.waitLoop (some t) checker start s now wakes =
      some (.error .Timeout, s) ∧
    WaitEvent.waitLoop (some t) checker start s now wakes =
      WaitEvent.waitLoop (some t) checker start s now wakes2 := by
  refine ⟨?_, WaitEvent.waitLoop_budget_exhausted t checker start s now wakes hc hb, ?_⟩
  · simp [WaitEvent.create_waiter, Nat.not_lt.mpr hb]
  · rw [WaitEvent.waitLoop_budget_exhausted t checker start s now wakes hc hb,
      WaitEvent.waitLoop_budget_exhausted t checker start s now wakes2 hc hb]

/-- C2 witness: with timeout 1, a checker for 5, current state 3 at
elapsed time 2, the loop times out at once and ignores a still-scheduled
wake that would deliver 5. -/
theorem wait_single_time_budget_witness :
    (fun n : Nat => n == 5) 3 = false ∧ 1 ≤ 2 - 0 ∧
    (WaitEvent.create_waiter (some 1) 0 2 = false ∧
     WaitEvent.waitLoop (some 1) (fun n : Nat => n == 5) 0 3 2 [⟨3, 5, false⟩] =
       some (.error .Timeout, 3) ∧
     WaitEvent.waitLoop (some 1) (fun n : Nat => n == 5) 0 3 2 [⟨3, 5, false⟩] =
       WaitEvent.waitLoop (some 1) (fun n : Nat => n == 5) 0 3 2 []) :=
  ⟨rfl, by decide,
    wait_single_time_budget 1 (fun n => n == 5) 0 3 2 [⟨3, 5, false⟩] [] rfl (by decide)⟩

/-- C3: whenever wait_reset returns success Ok(v), the value v is one the
checker matched, the cell afterwards holds exactly the value produced by
the reset function, and the underlying wait returned that same v both as
the guard value and as the cell content at the moment of the swap. -/
theorem wait_reset_success_swaps_reset_value {T : Type} (timeout : Option Nat)
    (reset : Unit → T) (checker : T → Bool) (p : Bool) (s0 : T)
    (start now0 : Nat) (wakes : List (WakeEvent T)) (v c : T)
    (h : WaitEvent.wait_reset timeout reset checker p s0 start now0 wakes =
      some (.ok v, c)) :
    checker v = true ∧ c = reset () ∧
      WaitEvent.wait_with_waiter timeout checker p s0 start now0 wakes =
        some (.ok v, v) := by
  have h2 : WaitEvent.wait_and_reset_with_waiter timeout checker reset p s0
      start now0 wakes = some (.ok v, c) := by
    cases timeout <;> exact h
  obtain ⟨hc, hchk, hw⟩ := WaitEvent.wait_and_reset_ok _ _ _ _ _ _ _ _ _ _ h2
  exact ⟨hchk, hc, hw⟩

/-- C3 witness: waiting for 3 from 0 with reset value 7, one wake
delivering 3 succeeds with previous value 3 and leaves 7 in the cell. -/
theorem wait_reset_success_swaps_reset_value_witness :
    (fun n : Nat => n == 3) 3 = true ∧ (7 : Nat) = (fun _ : Unit => 7) () ∧
    WaitEvent.wait_with_waiter (some 10) (fun n : Nat => n == 3) false 0 0 0
      [⟨1, 3, false⟩] = some (.ok 3, 3) :=
  wait_reset_success_swaps_reset_value (some 10) (fun _ => 7) (fun n => n == 3)
    false 0 0 0 [⟨1, 3, false⟩] 3 7 rfl

/-- C4: for the portable AutoResetEvent, every successful wait_until_set
or wait(timeout) returns Ok(true) — the observed value was true — and the
stored value is false immediately upon return. -/
theorem auto_reset_success_consumes_signal (p : Bool) (s0 : Bool)
    (start now0 : Nat) (wakes : List (WakeEvent Bool)) :
    (∀ v c, AutoResetEvent.wait_until_set p s0 start now0 wakes = some (.ok v, c) →
      v = true ∧ c = false) ∧
    (∀ t v c, AutoResetEvent.wait t p s0 start now0 wakes = some (.ok v, c) →
      v = true ∧ c = false) := by
  constructor
  · intro v c h
    have h2 : WaitEvent.wait_and_reset_with_waiter none (fun v => v)
        (fun _ => false) p s0 start now0 wakes = some (.ok v, c) := h
    obtain ⟨hc, hchk, -⟩ := WaitEvent.wait_and_reset_ok _ _ _ _ _ _ _ _ _ _ h2
    exact ⟨hchk, hc⟩
  · intro t v c h
    have h2 : WaitEvent.wait_and_reset_with_waiter (some t) (fun v => v)
        (fun _ => false) p s0 start now0 wakes = some (.ok v, c) := h
    obtain ⟨hc, hchk, -⟩ := WaitEvent.wait_and_reset_ok _ _ _ _ _ _ _ _ _ _ h2
    exact ⟨hchk, hc⟩

/-- C4 witness: an auto-reset event already set succeeds at once on both
operations, returning true and leaving false behind. -/
theorem auto_reset_success_consumes_signal_witness :
    (true = true ∧ false = false) ∧ (true = true ∧ false = false) :=
  ⟨(auto_reset_success_consumes_signal false true 0 0 []).1 true false rfl,
   (auto_reset_success_consumes_signal false true 0 0 []).2 5 true false rfl⟩

/-- C5: whenever wait_reset fails with Timeout, the reset function is not
applied: the value left in the cell is one a writer put there — the
initial value or a value observed at some wake — and the whole outcome,
cell included, is exactly that of the read-only wait. -/
theorem wait_reset_timeout_leaves_state_unreset {T : Type} (timeout : Option Nat)
    (reset : Unit → T) (checker : T → Bool) (p : Bool) (s0 : T)
    (start now0 : Nat) (wakes : List (WakeEvent T)) (c : T)
    (h : WaitEvent.wait_reset timeout reset checker p s0 start now0 wakes =
      some (.error .Timeout, c)) :
    c ∈ s0 :: wakes.map WakeEvent.state ∧
      WaitEvent.wait_with_waiter timeout checker p s0 start now0 wakes =
        some (.error .Timeout, c) := by
  have h2 : WaitEvent.wait_and_reset_with_waiter timeout checker reset p s0
      start now0 wakes = some (.error .Timeout, c) := by
    cases timeout <;> exact h
  have hw := WaitEvent.wait_and_reset_error _ _ _ _ _ _ _ _ _ _ h2
  exact ⟨(WaitEvent.wait_with_waiter_timeout_cell _ _ _ _ _ _ _ _ hw).2, hw⟩

/-- C5 witness: the spec scenario — the writer reaches 1, 2, 3 while the
checker waits for 5 under timeout 3 — times out and leaves 3, the last
written value, unreset in the cell. -/
theorem wait_reset_timeout_leaves_state_unreset_witness :
    (3 : Nat) ∈ 0 :: ([⟨1, 1, false⟩, ⟨2, 2, false⟩, ⟨3, 3, false⟩] :
        List (WakeEvent Nat)).map WakeEvent.state ∧
    WaitEvent.wait_with_waiter (some 3) (fun n : Nat => n == 5) false 0 0 0
      [⟨1, 1, false⟩, ⟨2, 2, false⟩, ⟨3, 3, false⟩] =
      some (.error .Timeout, 3) :=
  wait_reset_timeout_leaves_state_unreset (some 3) (fun _ => 0)
    (fun n => n == 5) false 0 0 0
    [⟨1, 1, false⟩, ⟨2, 2, false⟩, ⟨3, 3, false⟩] 3 rfl

/-- C6: evaluation at the failing input: derive(Clone) copies the raw
handle, so a native event and its clone each hold a still-valid copy of
OS handle 7 and their destructors issue CloseHandle(7) twice — the
invalid-marking only protects a single handle value, as re-dropping an
already-dropped value (second conjunct) shows. -/
theorem native_drop_double_close_across_clones :
    Windows.dropAll [⟨7⟩, Windows.clone ⟨7⟩] = [7, 7] ∧
    Windows.drop ((Windows.drop ⟨7⟩).1) = (⟨0⟩, []) :=
  ⟨rfl, rfl⟩

/-- C7: ManualResetEvent wait_until_set takes no timeout; every successful
call returns the stored boolean and it is true, and the call can never
fail with Timeout: the only error it ever returns is
SynchronizationBroken. -/
theorem manual_wait_until_set_never_timeout (p : Bool) (s0 : Bool)
    (start now0 : Nat) (wakes : List (WakeEvent Bool)) :
    (∀ v c, ManualResetEvent.wait_until_set p s0 start now0 wakes =
      some (.ok v, c) → v = true) ∧
    (∀ e c, ManualResetEvent.wait_until_set p s0 start now0 wakes =
      some (.error e, c) → e = .SynchronizationBroken) := by
  constructor
  · intro v c h
    have h2 : WaitEvent.wait_with_waiter none (fun v => v) p s0 start now0 wakes =
        some (.ok v, c) := h
    exact (WaitEvent.wait_with_waiter_ok_cell _ _ _ _ _ _ _ _ _ h2).2
  · intro e c h
    have h2 : WaitEvent.wait_with_waiter none (fun v => v) p s0 start now0 wakes =
        some (.error e, c) := h
    revert h2
    unfold WaitEvent.wait_with_waiter
    split
    · intro h2
      simp only [Option.some.injEq, Prod.mk.injEq, Except.error.injEq] at h2
      exact h2.1.symm
    · intro h2
      exact WaitEvent.waitLoop_none_error _ _ _ _ _ _ _ h2

/-- C7 witness: an already-set event returns true at once, and a poisoned
lock is the one error shape, never Timeout. -/
theorem manual_wait_until_set_never_timeout_witness :
    true = true ∧ WaitObjectError.SynchronizationBroken = .SynchronizationBroken :=
  ⟨(manual_wait_until_set_never_timeout false true 0 0 []).1 true true rfl,
   (manual_wait_until_set_never_timeout true false 0 0 []).2
     .SynchronizationBroken false rfl⟩

/-- C8: the conversions between the generic boolean handle and the two
reset-event wrappers are identity round trips: both directions preserve
the referenced shared state, starting from either side, and no conversion
touches the held value. -/
theorem reset_event_conversions_lossless :
    (∀ w : WaitEvent Bool,
      WaitEvent.from_manual (ManualResetEvent.from_wait_event w) = w ∧
      WaitEvent.from_auto (AutoResetEvent.from_wait_event w) = w ∧
      (ManualResetEvent.from_wait_event w).inner.stateRef = w.stateRef ∧
      (AutoResetEvent.from_wait_event w).inner.stateRef = w.stateRef) ∧
    (∀ m : ManualResetEvent,
      ManualResetEvent.from_wait_event (WaitEvent.from_manual m) = m) ∧
    (∀ a : AutoResetEvent,
      AutoResetEvent.from_wait_event (WaitEvent.from_auto a) = a) :=
  ⟨fun _ => ⟨rfl, rfl, rfl, rfl⟩, fun _ => rfl, fun _ => rfl⟩

/-- C9: checker success takes precedence over the time budget: for every
timeout, when the checker holds on the initial snapshot the call returns
that snapshot at once — for every elapsed time, so in particular with a
zero timeout whose budget is already spent — and whenever the call does
return Timeout, the last state the checker was evaluated on failed the
check. -/
theorem wait_checker_precedence_over_budget {T : Type} (t : Nat)
    (checker : T → Bool) (s0 : T) (start now0 : Nat)
    (wakes : List (WakeEvent T)) :
    (checker s0 = true →
      WaitEvent.wait_with_waiter (some t) checker false s0 start now0 wakes =
        some (.ok s0, s0)) ∧
    (∀ c, WaitEvent.wait_with_waiter (some t) checker false s0 start now0 wakes =
      some (.error .Timeout, c) → checker c = false) := by
  constructor
  · intro hc
    unfold WaitEvent.wait_with_waiter
    cases wakes <;> simp [WaitEvent.waitLoop, hc]
  · intro c h
    exact (WaitEvent.wait_with_waiter_timeout_cell _ _ _ _ _ _ _ _ h).1

/-- C9 witness: with a zero timeout and a checker already satisfied the
call returns the snapshot 42 without blocking; and a run that does time
out exited on a state failing the checker. -/
theorem wait_checker_precedence_over_budget_witness :
    WaitEvent.wait_with_waiter (some 0) (fun _ : Nat => true) false 42 0 5 [] =
      some (.ok 42, 42) ∧
    (fun n : Nat => n == 5) 3 = false :=
  ⟨(wait_checker_precedence_over_budget 0 (fun _ : Nat => true) 42 0 5 []).1 rfl,
   (wait_checker_precedence_over_budget 1 (fun n : Nat => n == 5) 3 0 5 []).2 3 rfl⟩

/-- C10: the public wait and wait_reset match on the timeout option with
identical branches, so each is extensionally equal to the underlying
wait_with_waiter and wait_and_reset_with_waiter at every argument. -/
theorem wait_public_delegates_to_waiter_impls {T : Type} (timeout : Option Nat)
    (checker : T → Bool) (reset : Unit → T) (p : Bool) (s0 : T)
    (start now0 : Nat) (wakes : List (WakeEvent T)) :
    WaitEvent.wait timeout checker p s0 start now0 wakes =
      WaitEvent.wait_with_waiter timeout checker p s0 start now0 wakes ∧
    WaitEvent.wait_reset timeout reset checker p s0 start now0 wakes =
      WaitEvent.wait_and_reset_with_waiter timeout checker reset p s0 start now0 wakes := by
  cases timeout <;> exact ⟨rfl, rfl⟩
